import Mathlib

/-!
Verification of the ava-wincore outlet-analysis pipeline.

Shallow embedding of the Python sources: Python strings are modelled as
Lean strings (with the character list as the underlying data), Python
floats as rationals restricted to the decimal-numeral fragment actually
used for coordinates, dictionaries as association lists or structures,
exceptions as Except values, and the thread-pool completion order of a
batch as an explicit scheduling parameter.
-/

set_option maxRecDepth 4000

namespace AvaWincore

/-! ## Python string primitives -/

/-- Python str.strip(): drop leading and trailing whitespace characters. -/
def pyStrip (cs : List Char) : List Char :=
  ((cs.dropWhile Char.isWhitespace).reverse.dropWhile Char.isWhitespace).reverse

/-- Python str.split with a comma separator: split at every comma,
keeping empty fragments, mirroring coord_str.split(',') in
data_loader.parse_coordinates. -/
def splitOnComma : List Char → List (List Char)
  | [] => [[]]
  | c :: rest =>
    if c = ',' then [] :: splitOnComma rest
    else
      match splitOnComma rest with
      | [] => [[c]]
      | t :: ts => (c :: t) :: ts

/-- Accumulator loop for Python str.split() with no separator argument:
whitespace runs separate tokens and empty tokens are discarded. -/
def splitWsAux : List Char → List Char → List (List Char)
  | [], acc => if acc = [] then [] else [acc.reverse]
  | c :: rest, acc =>
    if c.isWhitespace then
      if acc = [] then splitWsAux rest [] else acc.reverse :: splitWsAux rest []
    else splitWsAux rest (c :: acc)

/-- Python coord_str.split() (no argument): tokens separated by whitespace
runs, with no empty tokens. -/
def splitWs (cs : List Char) : List (List Char) :=
  splitWsAux cs []

/-- Numeric value of a list of decimal digit characters (empty list gives 0). -/
def digitsToNat (l : List Char) : Nat :=
  l.foldl (fun a c => a * 10 + (c.toNat - 48)) 0

/-- Python float() on an already-stripped token, restricted to the plain
decimal-numeral fragment used by coordinate strings: an optional sign,
then digits with at most one decimal point and at least one digit.
Returns none (a ValueError in the source) on any other shape. -/
def parsePyFloat (cs : List Char) : Option ℚ :=
  let signed : Bool × List Char :=
    match cs with
    | [] => (false, [])
    | c :: r => if c = '-' then (true, r) else if c = '+' then (false, r) else (false, c :: r)
  let sgn : ℚ := if signed.1 then -1 else 1
  match signed.2.splitOn '.' with
  | [w] =>
    if w ≠ [] ∧ w.all Char.isDigit then some (sgn * digitsToNat w) else none
  | [w, f] =>
    if (w ≠ [] ∨ f ≠ []) ∧ w.all Char.isDigit ∧ f.all Char.isDigit then
      some (sgn * ((digitsToNat w : ℚ) + (digitsToNat f : ℚ) / (10 : ℚ) ^ f.length))
    else none
  | _ => none

/-! ## data_loader.parse_coordinates -/

/-- The token lists produced by data_loader.parse_coordinates before the
float conversions: strip the input, then split on commas when a comma is
present, else split on whitespace. -/
def coordParts (s : String) : List (List Char) :=
  let cs := pyStrip s.toList
  if ',' ∈ cs then splitOnComma cs else splitWs cs

/-- Embedding of data_loader.parse_coordinates: returns the latitude and
longitude on success; any failure (wrong token count or a non-numeric
token) is re-raised as a ValueError whose message embeds the stripped
coordinate string, modelled here as the error branch of Except. -/
def parse_coordinates (s : String) : Except String (ℚ × ℚ) :=
  match coordParts s with
  | [p1, p2] =>
    match parsePyFloat (pyStrip p1), parsePyFloat (pyStrip p2) with
    | some la, some lo => .ok (la, lo)
    | _, _ =>
      .error ("Error saat parsing koordinat '" ++ String.mk (pyStrip s.toList) ++ "'")
  | _ =>
    .error ("Error saat parsing koordinat '" ++ String.mk (pyStrip s.toList) ++ "'")

/-- Whether parse_coordinates succeeds: the split yields exactly two
tokens and both tokens are numeric. -/
def coordWellFormed (s : String) : Bool :=
  match coordParts s with
  | [p1, p2] => (parsePyFloat (pyStrip p1)).isSome && (parsePyFloat (pyStrip p2)).isSome
  | _ => false

/-- Python substring membership test (sub in s) on character lists. -/
def containsSub (s sub : List Char) : Bool :=
  decide (sub <:+: s)

/-- Whether an Except value is a success. -/
def exceptOk : Except ε α → Bool
  | .ok _ => true
  | .error _ => false

/-! ## Lemmas about the string primitives -/

theorem dropWhile_eq_self_of_head {p : Char → Bool} {l : List Char}
    (h : ∀ c, l.head? = some c → p c = false) : l.dropWhile p = l := by
  cases l with
  | nil => rfl
  | cons c t => simp [List.dropWhile_cons, h c rfl]

theorem pyStrip_eq_self {l : List Char}
    (h1 : ∀ c, l.head? = some c → c.isWhitespace = false)
    (h2 : ∀ c, l.getLast? = some c → c.isWhitespace = false) : pyStrip l = l := by
  unfold pyStrip
  rw [dropWhile_eq_self_of_head h1, dropWhile_eq_self_of_head, List.reverse_reverse]
  intro c hc
  rw [List.head?_reverse] at hc
  exact h2 c hc

theorem pyStrip_wsfree {l : List Char}
    (h : ∀ c ∈ l, c.isWhitespace = false) : pyStrip l = l :=
  pyStrip_eq_self
    (fun c hc => h c (List.mem_of_mem_head? hc))
    (fun c hc => by
      obtain ⟨hne, hx⟩ := List.mem_getLast?_eq_getLast (show c ∈ l.getLast? from hc)
      exact h c (by rw [hx]; exact List.getLast_mem hne))

theorem pyStrip_ws_cons {c : Char} {l : List Char}
    (h : c.isWhitespace = true) : pyStrip (c :: l) = pyStrip l := by
  unfold pyStrip
  rw [List.dropWhile_cons, if_pos h]

theorem splitOnComma_ne_nil (l : List Char) : splitOnComma l ≠ [] := by
  induction l with
  | nil => simp [splitOnComma]
  | cons c t ih =>
    by_cases hc : c = ','
    · simp [splitOnComma, hc]
    · simp only [splitOnComma, if_neg hc]
      cases h : splitOnComma t with
      | nil => exact absurd h ih
      | cons a as => simp

theorem splitOnComma_not_mem {l : List Char} (h : ',' ∉ l) :
    splitOnComma l = [l] := by
  induction l with
  | nil => rfl
  | cons c t ih =>
    have hc : c ≠ ',' := fun hh => h (hh ▸ List.mem_cons_self c t)
    have ht : ',' ∉ t := fun hh => h (List.mem_cons_of_mem c hh)
    simp only [splitOnComma, if_neg (fun hh => hc hh), ih ht]

theorem splitOnComma_append {a r : List Char} (h : ',' ∉ a) :
    splitOnComma (a ++ ',' :: r) = a :: splitOnComma r := by
  induction a with
  | nil => simp [splitOnComma]
  | cons c t ih =>
    have hc : c ≠ ',' := fun hh => h (hh ▸ List.mem_cons_self c t)
    have ht : ',' ∉ t := fun hh => h (List.mem_cons_of_mem c hh)
    simp only [List.cons_append, splitOnComma, if_neg (fun hh => hc hh), List.append_eq, ih ht]

theorem splitWsAux_wsfree_append {a : List Char}
    (h : ∀ c ∈ a, c.isWhitespace = false) :
    ∀ (r acc : List Char), splitWsAux (a ++ r) acc = splitWsAux r (a.reverse ++ acc) := by
  induction a with
  | nil => intro r acc; simp
  | cons c t ih =>
    intro r acc
    have hc : c.isWhitespace = false := h c (List.mem_cons_self c t)
    have ht : ∀ x ∈ t, x.isWhitespace = false := fun x hx => h x (List.mem_cons_of_mem c hx)
    simp only [List.cons_append, splitWsAux, hc, Bool.false_eq_true, if_false, List.append_eq,
      ih ht, List.reverse_cons, List.append_assoc, List.singleton_append, List.nil_append]

theorem splitWs_wsfree {b : List Char} (hb : b ≠ [])
    (h : ∀ c ∈ b, c.isWhitespace = false) : splitWs b = [b] := by
  unfold splitWs
  have := splitWsAux_wsfree_append h [] []
  simp only [List.append_nil] at this
  rw [this]
  simp only [splitWsAux]
  rw [if_neg (by simpa using hb)]
  simp

theorem splitWs_pair {a b : List Char} (ha : a ≠ []) (hb : b ≠ [])
    (haw : ∀ c ∈ a, c.isWhitespace = false)
    (hbw : ∀ c ∈ b, c.isWhitespace = false) :
    splitWs (a ++ ' ' :: b) = [a, b] := by
  unfold splitWs
  rw [splitWsAux_wsfree_append haw]
  simp only [List.append_nil, splitWsAux]
  rw [if_pos (by decide), if_neg (by simpa using ha), List.reverse_reverse]
  have := splitWs_wsfree hb hbw
  unfold splitWs at this
  rw [this]

theorem pyStrip_append_append {a m b : List Char} (ha : a ≠ []) (hb : b ≠ [])
    (haw : ∀ c ∈ a, c.isWhitespace = false)
    (hbw : ∀ c ∈ b, c.isWhitespace = false) :
    pyStrip (a ++ (m ++ b)) = a ++ (m ++ b) := by
  apply pyStrip_eq_self
  · intro c hc
    rw [List.head?_append_of_ne_nil _ ha] at hc
    exact haw c (List.mem_of_mem_head? hc)
  · intro c hc
    rw [show a ++ (m ++ b) = (a ++ m) ++ b by rw [List.append_assoc],
        List.getLast?_append_of_ne_nil _ hb] at hc
    obtain ⟨hne, hx⟩ := List.mem_getLast?_eq_getLast (show c ∈ b.getLast? from hc)
    exact hbw c (by rw [hx]; exact List.getLast_mem hne)

theorem coordParts_comma {a b : List Char} (ha : a ≠ []) (hb : b ≠ [])
    (haw : ∀ c ∈ a, c.isWhitespace = false)
    (hbw : ∀ c ∈ b, c.isWhitespace = false)
    (hac : ',' ∉ a) (hbc : ',' ∉ b) :
    coordParts (String.mk (a ++ ',' :: ' ' :: b)) = [a, ' ' :: b] := by
  have hself : pyStrip (a ++ ',' :: ' ' :: b) = a ++ ',' :: ' ' :: b := by
    have := pyStrip_append_append (m := [',', ' ']) ha hb haw hbw
    simpa using this
  have htl : (String.mk (a ++ ',' :: ' ' :: b)).toList = a ++ ',' :: ' ' :: b := rfl
  unfold coordParts
  rw [htl, hself, if_pos (by simp)]
  rw [splitOnComma_append hac, splitOnComma_not_mem]
  intro h
  rcases List.mem_cons.mp h with h | h
  · exact absurd h (by decide)
  · exact hbc h

theorem coordParts_space {a b : List Char} (ha : a ≠ []) (hb : b ≠ [])
    (haw : ∀ c ∈ a, c.isWhitespace = false)
    (hbw : ∀ c ∈ b, c.isWhitespace = false)
    (hac : ',' ∉ a) (hbc : ',' ∉ b) :
    coordParts (String.mk (a ++ ' ' :: b)) = [a, b] := by
  have hself : pyStrip (a ++ ' ' :: b) = a ++ ' ' :: b := by
    have := pyStrip_append_append (m := [' ']) ha hb haw hbw
    simpa using this
  have htl : (String.mk (a ++ ' ' :: b)).toList = a ++ ' ' :: b := rfl
  unfold coordParts
  rw [htl, hself, if_neg, splitWs_pair ha hb haw hbw]
  intro h
  rcases List.mem_append.mp h with h | h
  · exact hac h
  · rcases List.mem_cons.mp h with h | h
    · exact absurd h (by decide)
    · exact hbc h

theorem parse_coordinates_eq_of_parts {s : String} {p1 p2 : List Char} {x y : ℚ}
    (hp : coordParts s = [p1, p2])
    (h1 : parsePyFloat (pyStrip p1) = some x)
    (h2 : parsePyFloat (pyStrip p2) = some y) :
    parse_coordinates s = .ok (x, y) := by
  unfold parse_coordinates
  simp only [hp, h1, h2]

/-- C5: separator style does not matter.  For every pair of nonempty
whitespace-free, comma-free numeric token lists, parse_coordinates
returns the same pair of numbers for the comma-separated form
"lat, lon" and the whitespace-separated form "lat lon". -/
theorem parse_coordinates_separator_agnostic
    {a b : List Char} {x y : ℚ}
    (ha : a ≠ []) (hb : b ≠ [])
    (haw : ∀ c ∈ a, c.isWhitespace = false)
    (hbw : ∀ c ∈ b, c.isWhitespace = false)
    (hac : ',' ∉ a) (hbc : ',' ∉ b)
    (hx : parsePyFloat a = some x) (hy : parsePyFloat b = some y) :
    parse_coordinates (String.mk (a ++ ',' :: ' ' :: b)) = .ok (x, y) ∧
    parse_coordinates (String.mk (a ++ ' ' :: b)) = .ok (x, y) := by
  have hA : pyStrip a = a := pyStrip_wsfree haw
  have hB : pyStrip b = b := pyStrip_wsfree hbw
  constructor
  · apply parse_coordinates_eq_of_parts (coordParts_comma ha hb haw hbw hac hbc)
    · rw [hA]; exact hx
    · rw [pyStrip_ws_cons (by decide), hB]; exact hy
  · apply parse_coordinates_eq_of_parts (coordParts_space ha hb haw hbw hac hbc)
    · rw [hA]; exact hx
    · rw [hB]; exact hy

theorem parsePyFloat_neg778 : parsePyFloat "-7.78".toList = some (-7.78 : ℚ) := by
  have key : parsePyFloat ['-', '7', '.', '7', '8'] =
      some ((-1 : ℚ) * ((↑(7 : ℕ) : ℚ) + (↑(78 : ℕ) : ℚ) / (10 : ℚ) ^ 2)) := rfl
  show parsePyFloat ['-', '7', '.', '7', '8'] = some (-7.78 : ℚ)
  rw [key]
  norm_num

theorem parsePyFloat_11037 : parsePyFloat "110.37".toList = some (110.37 : ℚ) := by
  have key : parsePyFloat ['1', '1', '0', '.', '3', '7'] =
      some ((1 : ℚ) * ((↑(110 : ℕ) : ℚ) + (↑(37 : ℕ) : ℚ) / (10 : ℚ) ^ 2)) := rfl
  show parsePyFloat ['1', '1', '0', '.', '3', '7'] = some (110.37 : ℚ)
  rw [key]
  norm_num

/-- Witness for C5 at the concrete pair from the specification. -/
theorem parse_coordinates_separator_agnostic_witness :
    parse_coordinates "-7.78, 110.37" = .ok (-7.78, 110.37) ∧
    parse_coordinates "-7.78 110.37" = .ok (-7.78, 110.37) := by
  have h := parse_coordinates_separator_agnostic
    (a := "-7.78".toList) (b := "110.37".toList)
    (x := -7.78) (y := 110.37)
    (by decide) (by decide) (by decide) (by decide) (by decide) (by decide)
    parsePyFloat_neg778 parsePyFloat_11037
  exact h

theorem errMsg_contains (cs : List Char) :
    containsSub ("Error saat parsing koordinat '" ++ String.mk cs ++ "'").toList cs = true := by
  unfold containsSub
  simp only [decide_eq_true_eq]
  refine ⟨"Error saat parsing koordinat '".toList, "'".toList, ?_⟩
  show "Error saat parsing koordinat '".data ++ cs ++ "'".data =
    ("Error saat parsing koordinat '" ++ String.mk cs ++ "'").data
  simp [String.data_append]

/-- C6 (amended): parse_coordinates fails exactly when the split does not
give two numeric tokens, and the reported error embeds the
whitespace-stripped input string; out-of-range values are accepted and
no other failure is possible. -/
theorem parse_coordinates_failure_characterization (s : String) :
    exceptOk (parse_coordinates s) = coordWellFormed s ∧
    (∀ e, parse_coordinates s = .error e →
      containsSub e.toList (pyStrip s.toList) = true) := by
  rcases h : coordParts s with _ | ⟨p1, _ | ⟨p2, _ | ⟨p3, rest⟩⟩⟩
  · refine ⟨by simp only [parse_coordinates, coordWellFormed, h, exceptOk], ?_⟩
    simp only [parse_coordinates, h]
    intro e he
    cases he
    exact errMsg_contains _
  · refine ⟨by simp only [parse_coordinates, coordWellFormed, h, exceptOk], ?_⟩
    simp only [parse_coordinates, h]
    intro e he
    cases he
    exact errMsg_contains _
  · rcases h1 : parsePyFloat (pyStrip p1) with _ | x <;>
      rcases h2 : parsePyFloat (pyStrip p2) with _ | y <;>
      refine ⟨by simp only [parse_coordinates, coordWellFormed, h, h1, h2, exceptOk,
        Option.isSome_none, Option.isSome_some, Bool.and_false, Bool.false_and,
        Bool.and_true, Bool.true_and], ?_⟩ <;>
      simp only [parse_coordinates, h, h1, h2] <;>
      intro e he <;> cases he
    · exact errMsg_contains _
    · exact errMsg_contains _
    · exact errMsg_contains _
  · refine ⟨by simp only [parse_coordinates, coordWellFormed, h, exceptOk], ?_⟩
    simp only [parse_coordinates, h]
    intro e he
    cases he
    exact errMsg_contains _

/-- Witness for C6: a concrete malformed input where the amended theorem
applies and yields a failure whose message embeds the stripped input. -/
theorem parse_coordinates_failure_characterization_witness :
    exceptOk (parse_coordinates "abc") = false ∧
    containsSub "Error saat parsing koordinat 'abc'".toList "abc".toList = true := by
  obtain ⟨h1, h2⟩ := parse_coordinates_failure_characterization "abc"
  exact ⟨by rw [h1]; decide, h2 "Error saat parsing koordinat 'abc'" rfl⟩

/-- Counterexample for C6 as stated: for the input " 1 2 3 " the failure
message embeds the stripped string "1 2 3" but not the original input
string " 1 2 3 ". -/
theorem parse_coordinates_error_strips_cex :
    parse_coordinates " 1 2 3 " = .error "Error saat parsing koordinat '1 2 3'" ∧
    containsSub "Error saat parsing koordinat '1 2 3'".toList " 1 2 3 ".toList = false ∧
    containsSub "Error saat parsing koordinat '1 2 3'".toList "1 2 3".toList = true := by
  refine ⟨rfl, by decide, by decide⟩

/-! ## api_handler.analyze_element_for_categories -/

/-- A tag bag of an OpenStreetMap element: a key-value dictionary. -/
abbrev Tags := List (String × String)

/-- Python tags.get(k, default-empty): the value of the key, else "". -/
def tagVal (tags : Tags) (k : String) : String :=
  (tags.lookup k).getD ""

/-- Python membership test (k in tags): key presence. -/
def tagHas (tags : Tags) (k : String) : Bool :=
  (tags.lookup k).isSome

/-- Python (tags.get(k) in values): a missing key (None) is never in the
list, a present value is compared by equality. -/
def tagIn (tags : Tags) (k : String) (vs : List String) : Bool :=
  match tags.lookup k with
  | some v => vs.contains v
  | none => false

/-- Python (tags.get(k) == v). -/
def tagEq (tags : Tags) (k : String) (v : String) : Bool :=
  tags.lookup k == some v

/-- Python truthiness of tags.get(k): present with a nonempty value. -/
def tagTruthy (tags : Tags) (k : String) : Bool :=
  tagVal tags k ≠ ""

/-- Python (sub in tags.get(k, empty-default)): substring membership in
the tag value. -/
def valHas (tags : Tags) (k : String) (sub : String) : Bool :=
  containsSub (tagVal tags k).toList sub.toList

/-- Python (kw in name_lower) for one keyword. -/
def nameHas (nl : List Char) (kw : String) : Bool :=
  containsSub nl kw.toList

/-- Python any(keyword in name_lower for keyword in kws). -/
def anyKeyword (nl : List Char) (kws : List String) : Bool :=
  kws.any (fun k => nameHas nl k)

/-- Python name.lower() if name else the empty string, as characters. -/
def lowerName (name : String) : List Char :=
  name.toList.map Char.toLower

/-- Embedding of api_handler.analyze_element_for_categories: the result
dictionary with its nine fixed keys in insertion order; each flag is the
disjunction of the tag-value, tag-presence and name-keyword rules of the
source. -/
def analyze_element_for_categories (tags : Tags) (name : String) : List (String × Bool) :=
  let nl := lowerName name
  let residential :=
    tagIn tags "building" ["residential", "apartments", "house", "dormitory"] ||
    tagEq tags "landuse" "residential" ||
    tagEq tags "amenity" "housing" ||
    anyKeyword nl ["perumahan", "apartemen", "rumah susun", "asrama", "cluster", "villa",
      "apartment", "residence", "housing", "dormitory"]
  let education :=
    tagIn tags "amenity" ["school", "university", "college", "kindergarten",
      "language_school", "education", "training"] ||
    tagIn tags "building" ["school", "university", "college", "kindergarten", "education"] ||
    anyKeyword nl ["sd", "smp", "sma", "smk", "universitas", "tk", "paud", "pesantren",
      "lembaga kursus", "sekolah", "school", "university", "college", "academy",
      "institute", "pendidikan", "education", "training", "kursus", "course"]
  let public_area :=
    tagIn tags "amenity" ["park", "community_centre", "marketplace", "place_of_worship",
      "bus_station", "terminal", "bus_stop", "ferry_terminal", "transportation",
      "public_building"] ||
    tagIn tags "leisure" ["park", "garden", "playground"] ||
    tagIn tags "tourism" ["museum", "gallery", "attraction"] ||
    tagHas tags "public_transport" ||
    tagIn tags "aeroway" ["aerodrome", "terminal"] ||
    anyKeyword nl ["taman kota", "alun-alun", "stasiun", "terminal", "tempat ibadah",
      "museum", "masjid", "gereja", "pura", "vihara", "klenteng", "mosque", "church",
      "temple", "synagogue", "park", "square", "station", "public area", "public space"]
  let culinary :=
    tagIn tags "amenity" ["restaurant", "cafe", "food_court", "fast_food", "bar", "pub",
      "bistro"] ||
    tagIn tags "shop" ["bakery", "coffee", "tea", "convenience", "grocery", "supermarket",
      "food"] ||
    tagHas tags "cuisine" ||
    anyKeyword nl ["restoran", "warung makan", "kedai kopi", "street food", "food court",
      "cafe", "restaurant", "warung", "warteg", "rumah makan", "kantin", "angkringan",
      "kedai", "bakery", "bakeri", "kue", "roti", "makanan", "minuman", "kuliner",
      "catering", "dapur", "food", "coffee", "kopi", "makan", "padang", "stall",
      "canteen", "warmindo", "warung mie", "warung bakso", "warung nasi",
      "fried chicken", "ayam goreng", "ayam geprek", "burger", "pizza", "steakhouse",
      "bbq", "barbecue", "seafood", "aneka", "jus", "juice", "minuman", "milk", "tea",
      "teh", "ice cream", "es krim", "martabak", "depot", "eatery", "bakso", "mie ayam",
      "bebek", "seafood", "nasi", "gado-gado", "sate", "satay", "soto", "gulai",
      "rendang", "pecel", "padang", "bistro", "kebab"]
  let business_center :=
    tagTruthy tags "shop" ||
    tagIn tags "building" ["commercial", "office", "retail", "supermarket"] ||
    tagIn tags "amenity" ["marketplace", "bank", "atm", "bureau_de_change",
      "business_center"] ||
    tagHas tags "office" ||
    tagIn tags "shop" ["mall", "supermarket", "department_store", "convenience",
      "marketplace"] ||
    tagIn tags "landuse" ["commercial", "retail"] ||
    anyKeyword nl ["gedung perkantoran", "ruko", "coworking space", "perkantoran",
      "office building", "office tower", "mall", "plaza", "pusat bisnis",
      "business center", "pasar", "market", "shop", "toko", "retail", "store",
      "supermarket", "department store", "pusat perbelanjaan", "shopping center",
      "shopping mall", "plaza", "square", "trade center", "itc", "mangga dua",
      "tanah abang", "pasar", "market", "bazaar", "hypermarket", "carrefour", "giant",
      "lotte mart", "ramayana", "matahari", "metro", "transmart", "grand indonesia",
      "central park", "pondok indah", "teras kota"]
  let groceries :=
    tagIn tags "shop" ["supermarket", "grocery", "greengrocer", "butcher", "seafood",
      "deli", "spices", "bakery", "food"] ||
    tagEq tags "amenity" "marketplace" ||
    anyKeyword nl ["toko kelontong", "toko sembako", "toko sayur", "mini market",
      "mini mart", "fresh market", "pasar tradisional", "supermarket", "hypermarket",
      "grocery", "greengrocer", "butcher", "seafood", "deli", "spices", "bakery",
      "pasar", "market", "swalayan", "toserba", "giant", "carrefour", "lottemart",
      "ranch market", "farmers market", "transmart", "hero", "brastagi", "foodmart",
      "foodhall", "organic", "food market", "superindo", "grand lucky", "total buah",
      "buah", "sayur", "vegetables", "fruits", "meat", "daging", "food", "makanan",
      "pasaraya", "fresh", "segar", "toko buah", "grocery", "groceries", "buah segar",
      "minimarket", "foodmart", "grosir", "wholesale", "retail", "super indo"]
  let convenient_stores :=
    tagIn tags "shop" ["convenience", "kiosk"] ||
    anyKeyword nl ["indomaret", "alfamart", "alfamidi", "circle k", "family mart",
      "lawson", "7-eleven", "7 eleven", "seven eleven", "minimart", "mini mart",
      "mini market", "convenience store", "convenience", "toko kelontong",
      "warung kelontong", "kios", "kiosk", "toko", "mart", "eceran", "ritel",
      "minishop", "toko serba ada", "toko kecil", "wartel", "kiosco", "retail",
      "alfaexpress", "alfa midi", "alfa express", "indomart", "alfaexpress", "alfa",
      "indomaret point"]
  let industrial :=
    tagIn tags "landuse" ["industrial", "factory"] ||
    tagIn tags "building" ["industrial", "factory", "warehouse", "manufacture",
      "manufacturing"] ||
    tagHas tags "industrial" ||
    tagIn tags "man_made" ["works", "factory"] ||
    anyKeyword nl ["pabrik", "factory", "industri", "industrial", "warehousing",
      "pergudangan", "gudang", "warehouse", "manufacturing", "kawasan industri",
      "workshop", "bengkel", "industrial estate", "industrial complex",
      "industrial park", "industrial area", "manufacture", "logistic", "logistik",
      "manufacturing", "assembly", "assembling", "processing", "storage", "fabrikasi",
      "fabrication", "plant", "kilang", "depot", "garasi", "maintenance",
      "pemeliharaan", "perbaikan", "repair", "machining", "welding", "galvanizing",
      "forge", "foundry", "smelter", "refinery", "kiln", "mill", "manufaktur"]
  let hospital_clinic :=
    tagIn tags "amenity" ["hospital", "clinic", "doctors", "healthcare", "dentist",
      "pharmacy", "veterinary", "health_centre"] ||
    tagHas tags "healthcare" ||
    tagIn tags "building" ["hospital", "clinic", "healthcare"] ||
    tagEq tags "emergency" "yes" ||
    anyKeyword nl ["rumah sakit", "hospital", "klinik", "clinic", "puskesmas", "bidan",
      "dokter", "doctor", "medical center", "pusat kesehatan", "rs", "apotek", "apotik",
      "pharmacy", "medical", "klinik gigi", "dental", "dentist", "orthodontist",
      "poliklinik", "laboratorium", "lab", "laboratory", "radiologi", "radiology",
      "ambulance", "ambulans", "icu", "igd", "ugd", "emergency", "physiotherapy",
      "fisioterapi", "rehab", "rehabilitasi", "rehabilitation", "psikiatri",
      "psychiatry", "psikologi", "psychology", "mental health", "kesehatan jiwa",
      "health", "medical service", "layanan kesehatan", "specialist", "spesialis",
      "care", "nursing", "perawatan", "therapy", "terapi", "orthopaedic", "orthopedic",
      "optometrist", "eye", "mata", "neurology", "saraf", "children", "anak",
      "ginekologi", "obstetri", "kanker", "cancer", "kardiovaskular", "cardiovascular",
      "jantung", "heart", "internist", "internal", "kulit", "skin", "urologi",
      "urology", "fertility", "reproduksi", "bedah", "surgery", "aesthetics",
      "kecantikan", "darurat", "intensive", "trauma"]
  [("residential", residential), ("education", education), ("public_area", public_area),
   ("culinary", culinary), ("business_center", business_center),
   ("groceries", groceries), ("convenient_stores", convenient_stores),
   ("industrial", industrial), ("hospital_clinic", hospital_clinic)]

/-- The nine category keys, in the insertion order of the source dict. -/
def categoryKeys : List String :=
  ["residential", "education", "public_area", "culinary", "business_center",
   "groceries", "convenient_stores", "industrial", "hospital_clinic"]

/-- Embedding of the subtype decision chain of
api_handler.get_nearby_places_detail: per category an ordered first-match
if/elif cascade over tag-value substrings and lower-cased name
substrings, with the initial value Unknown for an unmatched category. -/
def place_type (category : String) (tags : Tags) (name : String) : String :=
  let nl := lowerName name
  if category = "residential" then
    if tagIn tags "building" ["apartments", "dormitory"] then "Apartment/Dormitory"
    else if tagEq tags "building" "house" then "House"
    else if nameHas nl "cluster" || nameHas nl "villa" then "Cluster/Villa"
    else if nameHas nl "perumahan" then "Housing Complex"
    else "Residential Area"
  else if category = "education" then
    if valHas tags "amenity" "university" || nameHas nl "universitas" then "University"
    else if valHas tags "amenity" "school" ||
        anyKeyword nl ["sd", "smp", "sma", "smk", "sekolah"] then "School"
    else if valHas tags "amenity" "kindergarten" || anyKeyword nl ["tk", "paud"] then
      "Kindergarten"
    else if nameHas nl "pesantren" then "Islamic Boarding School"
    else if nameHas nl "kursus" || nameHas nl "course" || nameHas nl "training" then
      "Course/Training Center"
    else "Educational Institution"
  else if category = "public_area" then
    if valHas tags "amenity" "hospital" || nameHas nl "rumah sakit" || nameHas nl "rs" then
      "Hospital"
    else if valHas tags "amenity" "clinic" || nameHas nl "klinik" ||
        nameHas nl "puskesmas" then "Clinic"
    else if valHas tags "leisure" "park" || nameHas nl "taman" then "Park"
    else if valHas tags "amenity" "place_of_worship" ||
        anyKeyword nl ["masjid", "gereja", "pura", "vihara", "klenteng"] then
      "Place of Worship"
    else if valHas tags "tourism" "museum" || nameHas nl "museum" then "Museum"
    else if valHas tags "amenity" "bus_station" || nameHas nl "terminal" then
      "Bus Station/Terminal"
    else if valHas tags "public_transport" "station" || nameHas nl "stasiun" then
      "Train/Metro Station"
    else if valHas tags "aeroway" "terminal" || nameHas nl "bandara" ||
        nameHas nl "airport" then "Airport"
    else "Public Facility"
  else if category = "culinary" then
    if valHas tags "amenity" "restaurant" || nameHas nl "restoran" then "Restaurant"
    else if valHas tags "amenity" "cafe" || nameHas nl "cafe" || nameHas nl "kafe" then
      "Cafe"
    else if valHas tags "amenity" "food_court" || nameHas nl "food court" then
      "Food Court"
    else if valHas tags "amenity" "fast_food" || nameHas nl "fast food" then "Fast Food"
    else if nameHas nl "warmindo" then "Warmindo"
    else if nameHas nl "warung" || nameHas nl "warteg" then "Warung"
    else if nameHas nl "kedai" then "Kedai"
    else if valHas tags "shop" "bakery" || nameHas nl "bakery" || nameHas nl "roti" then
      "Bakery"
    else if valHas tags "shop" "coffee" || nameHas nl "kopi" then "Coffee Shop"
    else if anyKeyword nl ["ayam", "chicken", "bakso", "mie", "nasi", "soto", "pecel"] then
      "Food Stall"
    else "Food & Beverage"
  else if category = "business_center" then
    if valHas tags "building" "office" || nameHas nl "perkantoran" then "Office Building"
    else if nameHas nl "ruko" then "Shophouse"
    else if nameHas nl "coworking" then "Coworking Space"
    else if valHas tags "landuse" "industrial" || nameHas nl "kawasan industri" then
      "Industrial Area"
    else if valHas tags "shop" "supermarket" || nameHas nl "supermarket" then
      "Supermarket"
    else if valHas tags "shop" "mall" || nameHas nl "mall" || nameHas nl "plaza" then
      "Shopping Mall"
    else if valHas tags "amenity" "marketplace" || nameHas nl "pasar" ||
        nameHas nl "market" then "Market"
    else if valHas tags "shop" "convenience" || nameHas nl "alfamart" ||
        nameHas nl "indomaret" then "Convenience Store"
    else if tagHas tags "shop" then "Shop"
    else "Commercial Area"
  else if category = "groceries" then
    if valHas tags "shop" "supermarket" || nameHas nl "supermarket" then "Supermarket"
    else if valHas tags "shop" "grocery" || nameHas nl "grocery" ||
        nameHas nl "sembako" then "Grocery Store"
    else if valHas tags "shop" "greengrocer" || nameHas nl "sayur" ||
        nameHas nl "buah" then "Greengrocer/Fruit Shop"
    else if valHas tags "shop" "butcher" || nameHas nl "daging" || nameHas nl "meat" then
      "Butcher Shop"
    else if valHas tags "shop" "seafood" || nameHas nl "seafood" then "Seafood Shop"
    else if valHas tags "amenity" "marketplace" || nameHas nl "pasar" ||
        nameHas nl "market" then "Traditional Market"
    else if valHas tags "shop" "bakery" || nameHas nl "bakery" || nameHas nl "roti" then
      "Bakery"
    else if nameHas nl "kelontong" then "Small Grocery"
    else "Grocery Store"
  else if category = "convenient_stores" then
    if nameHas nl "indomaret" then "Indomaret"
    else if nameHas nl "alfamart" || nameHas nl "alfamidi" || nameHas nl "alfa" then
      "Alfamart/Alfamidi"
    else if nameHas nl "circle k" then "Circle K"
    else if nameHas nl "family mart" then "Family Mart"
    else if nameHas nl "lawson" then "Lawson"
    else if nameHas nl "7-eleven" || nameHas nl "7 eleven" ||
        nameHas nl "seven eleven" then "7-Eleven"
    else if nameHas nl "minimart" || nameHas nl "mini mart" ||
        nameHas nl "mini market" then "Mini Market"
    else if valHas tags "shop" "convenience" || nameHas nl "convenience" then
      "Convenience Store"
    else if valHas tags "shop" "kiosk" || nameHas nl "kios" || nameHas nl "warung" then
      "Kiosk/Small Shop"
    else "Convenience Store"
  else if category = "industrial" then
    if valHas tags "building" "factory" || nameHas nl "pabrik" || nameHas nl "factory" then
      "Factory"
    else if valHas tags "building" "warehouse" || nameHas nl "gudang" ||
        nameHas nl "warehouse" then "Warehouse"
    else if valHas tags "landuse" "industrial" || nameHas nl "kawasan industri" ||
        nameHas nl "industrial" then "Industrial Area"
    else if valHas tags "industrial" "workshop" || nameHas nl "bengkel" ||
        nameHas nl "workshop" then "Workshop"
    else if valHas tags "building" "manufacturing" || nameHas nl "manufacturing" ||
        nameHas nl "manufaktur" then "Manufacturing Facility"
    else "Industrial Facility"
  else if category = "hospital_clinic" then
    if valHas tags "amenity" "hospital" || nameHas nl "rumah sakit" ||
        nameHas nl "hospital" || nameHas nl "rs" then "Hospital"
    else if valHas tags "amenity" "clinic" || nameHas nl "klinik" ||
        nameHas nl "clinic" then "Clinic"
    else if valHas tags "amenity" "doctors" || nameHas nl "dokter" ||
        nameHas nl "doctor" then "Doctor Office"
    else if valHas tags "amenity" "pharmacy" || nameHas nl "apotek" ||
        nameHas nl "apotik" || nameHas nl "pharmacy" then "Pharmacy"
    else if valHas tags "amenity" "dentist" || nameHas nl "gigi" ||
        nameHas nl "dental" then "Dental Clinic"
    else if nameHas nl "puskesmas" || nameHas nl "health center" ||
        nameHas nl "health centre" then "Community Health Center"
    else if nameHas nl "laboratory" || nameHas nl "lab" ||
        nameHas nl "laboratorium" then "Medical Laboratory"
    else "Healthcare Facility"
  else "Unknown"

/-- C10: for every tag bag and every name, the classifier returns the
dictionary with exactly the nine fixed category keys, in order; every
value is a Bool by the result type.  No call adds, removes or renames a
key. -/
theorem analyze_element_key_set (tags : Tags) (name : String) :
    (analyze_element_for_categories tags name).map Prod.fst = categoryKeys := rfl

/-- C3: a feature whose tag bag is exactly amenity=restaurant with the
name "Warung Bu Tutik" gets Culinary true, the eight other category
flags false, and the derived subtype label "Restaurant". -/
theorem classify_restaurant_scenario :
    analyze_element_for_categories [("amenity", "restaurant")] "Warung Bu Tutik" =
      [("residential", false), ("education", false), ("public_area", false),
       ("culinary", true), ("business_center", false), ("groceries", false),
       ("convenient_stores", false), ("industrial", false), ("hospital_clinic", false)] ∧
    place_type "culinary" [("amenity", "restaurant")] "Warung Bu Tutik" = "Restaurant" := by
  exact ⟨by decide, by decide⟩

/-! ## facility_analyzer: retry loop and batch orchestrator -/

/-- An input outlet row: keys nama and koordinat of the source dicts. -/
structure Outlet where
  nama : String
  koordinat : String
deriving DecidableEq, Repr

/-- The nine-flag dictionary returned by check_nearby_facilities_simple. -/
structure Facilities where
  residential : Bool
  education : Bool
  public_area : Bool
  culinary : Bool
  business_center : Bool
  groceries : Bool
  convenient_stores : Bool
  industrial : Bool
  hospital_clinic : Bool
deriving DecidableEq, Repr

/-- A per-outlet result record: the keys Nama Outlet, Koordinat,
Latitude, Longitude, the nine display-category flags, and the optional
Error marker added on permanent failure. -/
structure OutletResult where
  namaOutlet : String
  koordinat : String
  latitude : ℚ
  longitude : ℚ
  residential : Bool
  education : Bool
  public_area : Bool
  culinary : Bool
  business_center : Bool
  groceries : Bool
  convenient_stores : Bool
  industrial : Bool
  hospital_clinic : Bool
  error : Option String
deriving DecidableEq, Repr

/-- The record built on a successful attempt of
process_outlet_with_retry. -/
def successRecord (o : Outlet) (lat lon : ℚ) (nf : Facilities) : OutletResult :=
  { namaOutlet := o.nama, koordinat := o.koordinat, latitude := lat, longitude := lon,
    residential := nf.residential, education := nf.education,
    public_area := nf.public_area, culinary := nf.culinary,
    business_center := nf.business_center, groceries := nf.groceries,
    convenient_stores := nf.convenient_stores, industrial := nf.industrial,
    hospital_clinic := nf.hospital_clinic, error := none }

/-- The all-false placeholder record emitted when every retry failed. -/
def failureRecord (o : Outlet) (lat lon : ℚ) : OutletResult :=
  { namaOutlet := o.nama, koordinat := o.koordinat, latitude := lat, longitude := lon,
    residential := false, education := false, public_area := false, culinary := false,
    business_center := false, groceries := false, convenient_stores := false,
    industrial := false, hospital_clinic := false,
    error := some "Failed to process after multiple retries" }

/-- Python any(result.get(category, False) for category in categories)
over the nine display categories (used by increase_detection_radius). -/
def anyFlag (r : OutletResult) : Bool :=
  r.residential || r.education || r.public_area || r.culinary || r.business_center ||
  r.groceries || r.convenient_stores || r.industrial || r.hospital_clinic

/-- One iteration of the try block of process_outlet_with_retry: parse
the coordinates, query the facilities client, assemble the record; any
exception propagates as the error branch. -/
def attemptOutlet (check : Except String Facilities) (o : Outlet) :
    Except String OutletResult :=
  match parse_coordinates o.koordinat with
  | .error e => .error e
  | .ok (lat, lon) =>
    match check with
    | .error e => .error e
    | .ok nf => .ok (successRecord o lat lon nf)

/-- The retry loop of process_outlet_with_retry.  The client is a
function of the attempt index (one call of check_nearby_facilities_simple
per attempt); the first component is the returned record (none models
the Python None), the second the number of attempts made. -/
def retryGo (check : Nat → Except String Facilities) (o : Outlet) :
    Nat → Nat → Option OutletResult × Nat
  | n, 0 =>
    (match parse_coordinates o.koordinat with
     | .ok (lat, lon) => some (failureRecord o lat lon)
     | .error _ => none, n)
  | n, fuel + 1 =>
    match attemptOutlet (check n) o with
    | .ok r => (some r, n + 1)
    | .error _ => retryGo check o (n + 1) fuel

/-- Embedding of facility_analyzer.process_outlet_with_retry: run up to
max_retries attempts, then fall back to the all-false error record, or
None when even the coordinate parse fails. -/
def process_outlet_with_retry (check : Nat → Except String Facilities) (o : Outlet)
    (max_retries : Nat) : Option OutletResult × Nat :=
  retryGo check o 0 max_retries

/-- Fuel-bounded worker for chunksOf; the fuel is at least the length of
the list, so the fuel-exhausted branch is never taken. -/
def chunksOfAux (n : Nat) : Nat → List α → List (List α)
  | _, [] => []
  | 0, l => [l]
  | fuel + 1, x :: xs => (x :: xs.take (n - 1)) :: chunksOfAux n fuel (xs.drop (n - 1))

/-- The batch slicing of batch_process_outlets: consecutive chunks of at
most batch_size elements. -/
def chunksOf (n : Nat) (l : List α) : List (List α) :=
  chunksOfAux n l.length l

/-- Embedding of facility_analyzer.batch_process_outlets.  The worker
pool is modelled by the per-outlet function proc together with sched,
the completion order in which as_completed yields the futures of one
batch (a permutation of the batch); None results are discarded exactly
as the source's truthiness test does. -/
def batch_process_outlets (proc : Outlet → Option OutletResult)
    (sched : List Outlet → List Outlet) (batch_size : Nat)
    (outlets : List Outlet) : List OutletResult :=
  (chunksOf batch_size outlets).flatMap (fun batch => ((sched batch).map proc).reduceOption)

theorem retryGo_none_of_parse_error (check : Nat → Except String Facilities)
    (o : Outlet) (h : exceptOk (parse_coordinates o.koordinat) = false) :
    ∀ fuel n, (retryGo check o n fuel).1 = none := by
  intro fuel
  induction fuel with
  | zero =>
    intro n
    rcases he : parse_coordinates o.koordinat with e | v
    · simp [retryGo, he]
    · rw [he] at h; simp [exceptOk] at h
  | succ fuel ih =>
    intro n
    rcases he : parse_coordinates o.koordinat with e | v
    · simp [retryGo, attemptOutlet, he, ih]
    · rw [he] at h; simp [exceptOk] at h

theorem retryGo_name (check : Nat → Except String Facilities) (o : Outlet) :
    ∀ fuel n r, (retryGo check o n fuel).1 = some r → r.namaOutlet = o.nama := by
  intro fuel
  induction fuel with
  | zero =>
    intro n r h
    rcases he : parse_coordinates o.koordinat with e | v
    · simp [retryGo, he] at h
    · rcases v with ⟨lat, lon⟩
      simp only [retryGo, he] at h
      cases h
      rfl
  | succ fuel ih =>
    intro n r h
    rcases ha : attemptOutlet (check n) o with e | q
    · simp only [retryGo, ha] at h
      exact ih (n + 1) r h
    · simp only [retryGo, ha] at h
      cases h
      unfold attemptOutlet at ha
      rcases he : parse_coordinates o.koordinat with e | v
      · rw [he] at ha; cases ha
      · rcases v with ⟨lat, lon⟩
        rw [he] at ha
        rcases hc : check n with e | nf
        · rw [hc] at ha; cases ha
        · rw [hc] at ha
          cases ha
          rfl

theorem mem_of_mem_chunksOfAux {n : Nat} :
    ∀ (fuel : Nat) (l b : List α), b ∈ chunksOfAux n fuel l → ∀ x ∈ b, x ∈ l := by
  intro fuel
  induction fuel with
  | zero =>
    intro l b hb x hx
    cases l with
    | nil => simp [chunksOfAux] at hb
    | cons y ys =>
      simp only [chunksOfAux, List.mem_singleton] at hb
      exact hb ▸ hx
  | succ fuel ih =>
    intro l b hb x hx
    cases l with
    | nil => simp [chunksOfAux] at hb
    | cons y ys =>
      simp only [chunksOfAux, List.mem_cons] at hb
      rcases hb with rfl | hb
      · rcases List.mem_cons.mp hx with rfl | hx
        · exact List.mem_cons_self _ _
        · exact List.mem_cons_of_mem _ (List.mem_of_mem_take hx)
      · exact List.mem_cons_of_mem _ (List.mem_of_mem_drop (ih _ b hb x hx))

theorem mem_of_mem_chunksOf {n : Nat} {l b : List α} (hb : b ∈ chunksOf n l) :
    ∀ x ∈ b, x ∈ l :=
  mem_of_mem_chunksOfAux l.length l b hb

theorem batch_process_outlets_origin {proc : Outlet → Option OutletResult}
    {sched : List Outlet → List Outlet} {bs : Nat} {outlets : List Outlet}
    (hsched : ∀ b, (sched b).Perm b) {r : OutletResult}
    (hr : r ∈ batch_process_outlets proc sched bs outlets) :
    ∃ p ∈ outlets, proc p = some r := by
  unfold batch_process_outlets at hr
  rcases List.mem_flatMap.mp hr with ⟨batch, hbatch, hrb⟩
  rcases List.mem_map.mp (List.reduceOption_mem_iff.mp hrb) with ⟨p, hp, hpr⟩
  exact ⟨p, mem_of_mem_chunksOf hbatch p ((hsched batch).mem_iff.mp hp), hpr⟩

/-- C1: with a query client that fails on every attempt and a parseable
coordinate string, process_outlet_with_retry with max_retries 2 makes
exactly 2 attempts and returns the record whose nine category flags are
all false, whose name and coordinate fields are the outlet's own, and
whose Error field is the non-empty failure message — it neither raises
nor drops the outlet. -/
theorem process_outlet_with_retry_always_failing_client
    (o : Outlet) (check : Nat → Except String Facilities) (lat lon : ℚ)
    (hfail : ∀ n, exceptOk (check n) = false)
    (hparse : parse_coordinates o.koordinat = .ok (lat, lon)) :
    process_outlet_with_retry check o 2 = (some (failureRecord o lat lon), 2) ∧
    anyFlag (failureRecord o lat lon) = false ∧
    (failureRecord o lat lon).error = some "Failed to process after multiple retries" ∧
    (failureRecord o lat lon).namaOutlet = o.nama ∧
    "Failed to process after multiple retries" ≠ "" := by
  have herr : ∀ n, ∃ e, check n = .error e := by
    intro n
    rcases hc : check n with e | f
    · exact ⟨e, rfl⟩
    · have hn := hfail n
      rw [hc] at hn
      exact absurd hn (by simp [exceptOk])
  obtain ⟨e0, h0⟩ := herr 0
  obtain ⟨e1, h1⟩ := herr 1
  refine ⟨?_, rfl, rfl, rfl, by decide⟩
  show retryGo check o 0 (Nat.succ (Nat.succ 0)) = (some (failureRecord o lat lon), 2)
  simp [retryGo, attemptOutlet, hparse, h0, h1]

/-- Witness for C1 at a concrete outlet and an always-failing client. -/
theorem process_outlet_with_retry_always_failing_client_witness :
    process_outlet_with_retry (fun _ => .error "boom") ⟨"A", "1, 2"⟩ 2 =
      (some (failureRecord ⟨"A", "1, 2"⟩ 1 2), 2) ∧
    anyFlag (failureRecord ⟨"A", "1, 2"⟩ 1 2) = false ∧
    (failureRecord ⟨"A", "1, 2"⟩ 1 2).error =
      some "Failed to process after multiple retries" ∧
    (failureRecord ⟨"A", "1, 2"⟩ 1 2).namaOutlet = "A" ∧
    "Failed to process after multiple retries" ≠ "" := by
  have hone : parsePyFloat (pyStrip ['1']) = some (1 : ℚ) := by
    have key : parsePyFloat (pyStrip ['1']) = some ((1 : ℚ) * (↑(1 : ℕ) : ℚ)) := rfl
    rw [key]; norm_num
  have htwo : parsePyFloat (pyStrip [' ', '2']) = some (2 : ℚ) := by
    have key : parsePyFloat (pyStrip [' ', '2']) = some ((1 : ℚ) * (↑(2 : ℕ) : ℚ)) := rfl
    rw [key]; norm_num
  have hparse : parse_coordinates "1, 2" = .ok (1, 2) :=
    parse_coordinates_eq_of_parts (by decide) hone htwo
  exact process_outlet_with_retry_always_failing_client ⟨"A", "1, 2"⟩
    (fun _ => .error "boom") 1 2 (fun _ => rfl) hparse

/-- C9: an outlet whose coordinate string is unparseable yields None
from process_outlet_with_retry for every client and retry budget, and
batch_process_outlets discards it, so no record in the batch output (and
hence in the checkpoint) carries its name. -/
theorem unparseable_outlet_dropped
    (o : Outlet) (check : Outlet → Nat → Except String Facilities)
    (hbad : exceptOk (parse_coordinates o.koordinat) = false)
    (outlets : List Outlet) (sched : List Outlet → List Outlet)
    (hsched : ∀ b, (sched b).Perm b) (bs : Nat)
    (huniq : ∀ p ∈ outlets, p.nama = o.nama → p = o) :
    (∀ mr, (process_outlet_with_retry (check o) o mr).1 = none) ∧
    ∀ r ∈ batch_process_outlets (fun p => (process_outlet_with_retry (check p) p 2).1)
        sched bs outlets, r.namaOutlet ≠ o.nama := by
  constructor
  · intro mr
    exact retryGo_none_of_parse_error (check o) o hbad mr 0
  · intro r hr hname
    obtain ⟨p, hp, hpr⟩ := batch_process_outlets_origin hsched hr
    have hpn : r.namaOutlet = p.nama := retryGo_name (check p) p 2 0 r hpr
    have hpo : p = o := huniq p hp (by rw [← hpn, hname])
    rw [hpo] at hpr
    have hnone : (process_outlet_with_retry (check o) o 2).1 = none :=
      retryGo_none_of_parse_error (check o) o hbad 2 0
    rw [hnone] at hpr
    cases hpr

/-- Witness for C9: a mixed two-outlet batch where the outlet with the
malformed coordinate vanishes from the output. -/
theorem unparseable_outlet_dropped_witness :
    (∀ mr, (process_outlet_with_retry (fun _ => .error "e") ⟨"B", "xx"⟩ mr).1 = none) ∧
    ∀ r ∈ batch_process_outlets
        (fun p => (process_outlet_with_retry (fun _ => .error "e") p 2).1)
        id 1000 [⟨"A", "1, 2"⟩, ⟨"B", "xx"⟩], r.namaOutlet ≠ "B" := by
  exact unparseable_outlet_dropped ⟨"B", "xx"⟩ (fun _ _ => .error "e") (by decide)
    [⟨"A", "1, 2"⟩, ⟨"B", "xx"⟩] id (fun b => List.Perm.refl b) 1000 (by decide)

/-! ## facility_analyzer.get_remaining_outlets -/

/-- Embedding of facility_analyzer.get_remaining_outlets: with no
existing results return everything, else keep the outlets whose nama is
not among the Nama Outlet fields of the checkpoint (a set membership
test in the source). -/
def get_remaining_outlets (outlets : List Outlet) (existing : List OutletResult) :
    List Outlet :=
  if existing = [] then outlets
  else outlets.filter fun o => !decide (o.nama ∈ existing.map OutletResult.namaOutlet)

theorem filter_on_names (q : String → Bool) (outlets : List Outlet) :
    (outlets.filter fun o => q o.nama).length =
      ((outlets.map Outlet.nama).filter q).length := by
  rw [List.filter_map]
  simp only [List.length_map]
  congr 1

theorem length_filter_mem_dedup {names : List String} (hnd : names.Nodup)
    (ms : List String) (hsub : ∀ x ∈ ms, x ∈ names) :
    (names.filter fun nm => decide (nm ∈ ms)).length = ms.dedup.length := by
  apply List.Perm.length_eq
  rw [List.perm_ext_iff_of_nodup (List.Nodup.filter _ hnd) (List.nodup_dedup ms)]
  intro a
  rw [List.mem_filter, List.mem_dedup]
  constructor
  · rintro ⟨_, ha⟩
    exact of_decide_eq_true ha
  · intro ha
    exact ⟨hsub a ha, decide_eq_true ha⟩

/-- C4: relative to a checkpoint whose processed names all occur among
the (duplicate-free) outlet names, get_remaining_outlets returns a
sublist of the input (original relative order), containing exactly the
outlets whose names are absent from the checkpoint, of length N minus
the number of distinct processed names. -/
theorem get_remaining_outlets_correct
    (outlets : List Outlet) (existing : List OutletResult)
    (hnodup : (outlets.map Outlet.nama).Nodup)
    (hsub : ∀ r ∈ existing, r.namaOutlet ∈ outlets.map Outlet.nama) :
    List.Sublist (get_remaining_outlets outlets existing) outlets ∧
    (∀ o ∈ outlets, (o ∈ get_remaining_outlets outlets existing ↔
      o.nama ∉ existing.map OutletResult.namaOutlet)) ∧
    (get_remaining_outlets outlets existing).length =
      outlets.length - ((existing.map OutletResult.namaOutlet).dedup).length := by
  by_cases he : existing = []
  · subst he
    simp [get_remaining_outlets]
  · unfold get_remaining_outlets
    rw [if_neg he]
    refine ⟨List.filter_sublist _, ?_, ?_⟩
    · intro o ho
      rw [List.mem_filter]
      constructor
      · rintro ⟨_, hb⟩
        simpa using hb
      · intro hnm
        exact ⟨ho, by simpa using hnm⟩
    · have hsplit := List.length_eq_countP_add_countP
        (fun o : Outlet => decide (o.nama ∈ existing.map OutletResult.namaOutlet)) outlets
      rw [List.countP_eq_length_filter, List.countP_eq_length_filter] at hsplit
      have hnot : (outlets.filter fun o =>
          decide ¬(decide (o.nama ∈ existing.map OutletResult.namaOutlet) = true)) =
          (outlets.filter fun o =>
            !decide (o.nama ∈ existing.map OutletResult.namaOutlet)) := by
        congr 1
        funext o
        simp only [decide_not, decide_eq_true_eq]
      rw [hnot] at hsplit
      have hsub2 : ∀ x ∈ existing.map OutletResult.namaOutlet,
          x ∈ outlets.map Outlet.nama := by
        intro x hx
        rcases List.mem_map.mp hx with ⟨r, hr, rfl⟩
        exact hsub r hr
      have hmem := filter_on_names
        (fun nm => decide (nm ∈ existing.map OutletResult.namaOutlet)) outlets
      rw [length_filter_mem_dedup hnodup _ hsub2] at hmem
      omega

/-- Witness for C4: three outlets, a checkpoint with one processed name. -/
theorem get_remaining_outlets_correct_witness :
    List.Sublist
      (get_remaining_outlets [⟨"A", "1, 2"⟩, ⟨"B", "3, 4"⟩, ⟨"C", "5, 6"⟩]
        [failureRecord ⟨"B", "3, 4"⟩ 3 4])
      [⟨"A", "1, 2"⟩, ⟨"B", "3, 4"⟩, ⟨"C", "5, 6"⟩] ∧
    (∀ o ∈ [(⟨"A", "1, 2"⟩ : Outlet), ⟨"B", "3, 4"⟩, ⟨"C", "5, 6"⟩],
      (o ∈ get_remaining_outlets [⟨"A", "1, 2"⟩, ⟨"B", "3, 4"⟩, ⟨"C", "5, 6"⟩]
          [failureRecord ⟨"B", "3, 4"⟩ 3 4] ↔
        o.nama ∉ [failureRecord ⟨"B", "3, 4"⟩ 3 4].map OutletResult.namaOutlet)) ∧
    (get_remaining_outlets [⟨"A", "1, 2"⟩, ⟨"B", "3, 4"⟩, ⟨"C", "5, 6"⟩]
        [failureRecord ⟨"B", "3, 4"⟩ 3 4]).length =
      3 - (([failureRecord ⟨"B", "3, 4"⟩ 3 4].map OutletResult.namaOutlet).dedup).length := by
  exact get_remaining_outlets_correct
    [⟨"A", "1, 2"⟩, ⟨"B", "3, 4"⟩, ⟨"C", "5, 6"⟩]
    [failureRecord ⟨"B", "3, 4"⟩ 3 4] (by decide) (by decide)

/-! ## api_handler.call_overpass_api -/

/-- The configured query endpoints of config.py, in priority order. -/
def OVERPASS_ENDPOINTS : List String :=
  ["http://31.97.187.239:12345/api/interpreter",
   "https://overpass-api.de/api/interpreter",
   "https://overpass.kumi.systems/api/interpreter"]

/-- The endpoint loop of call_overpass_api.  The network is a function
from endpoint to either a transport/parse exception (error branch,
covering request exceptions and a body that fails to parse) or a status
code with the parsed body. -/
def tryEndpoints (net : String → Except String (Nat × β)) : List String → Option β
  | [] => none
  | e :: rest =>
    match net e with
    | .ok (status, body) => if status = 200 then some body else tryEndpoints net rest
    | .error _ => tryEndpoints net rest

/-- Embedding of api_handler.call_overpass_api: walk OVERPASS_ENDPOINTS
in order, return the parsed body of the first endpoint answering 200,
else the sentinel none. -/
def call_overpass_api (net : String → Except String (Nat × β)) : Option β :=
  tryEndpoints net OVERPASS_ENDPOINTS

/-- Whether one endpoint answers with HTTP 200 (and a parseable body). -/
def endpointSuccess (net : String → Except String (Nat × β)) (e : String) : Bool :=
  match net e with
  | .ok (status, _) => status == 200
  | .error _ => false

theorem tryEndpoints_eq_none {β : Type} (net : String → Except String (Nat × β)) :
    ∀ l, (∀ e ∈ l, endpointSuccess net e = false) → tryEndpoints net l = none := by
  intro l
  induction l with
  | nil => intro _; rfl
  | cons e rest ih =>
    intro h
    have he := h e (List.mem_cons_self _ _)
    unfold endpointSuccess at he
    unfold tryEndpoints
    rcases hne : net e with msg | sb
    · exact ih fun f hf => h f (List.mem_cons_of_mem _ hf)
    · rcases sb with ⟨status, body⟩
      rw [hne] at he
      dsimp only at he ⊢
      rw [if_neg (by simpa using he)]
      exact ih fun f hf => h f (List.mem_cons_of_mem _ hf)

theorem tryEndpoints_eq_some {β : Type} (net : String → Except String (Nat × β)) :
    ∀ (l : List String) (i : Nat) (e : String) (d : β),
      l[i]? = some e → net e = .ok (200, d) →
      (∀ j f, j < i → l[j]? = some f → endpointSuccess net f = false) →
      tryEndpoints net l = some d := by
  intro l
  induction l with
  | nil => intro i e d hi; simp at hi
  | cons a rest ih =>
    intro i e d hi hnet hbefore
    cases i with
    | zero =>
      simp only [List.getElem?_cons_zero, Option.some.injEq] at hi
      subst hi
      unfold tryEndpoints
      rw [hnet]
      simp
    | succ i =>
      have ha := hbefore 0 a (Nat.succ_pos i) (by simp)
      unfold endpointSuccess at ha
      unfold tryEndpoints
      rcases hna : net a with msg | sb
      · exact ih i e d (by simpa using hi) hnet
          (fun j f hj hjf => hbefore (j + 1) f (Nat.succ_lt_succ hj) (by simpa using hjf))
      · rcases sb with ⟨status, body⟩
        rw [hna] at ha
        dsimp only at ha ⊢
        rw [if_neg (by simpa using ha)]
        exact ih i e d (by simpa using hi) hnet
          (fun j f hj hjf => hbefore (j + 1) f (Nat.succ_lt_succ hj) (by simpa using hjf))

/-- C7: call_overpass_api walks the configured endpoints in priority
order, returning the parsed body of the first endpoint that answers
HTTP 200 (every earlier endpoint having failed with a non-200 status or
an exception), and returns the sentinel none, not an exception, when all
endpoints fail. -/
theorem call_overpass_api_failover {β : Type} (net : String → Except String (Nat × β)) :
    ((∀ e ∈ OVERPASS_ENDPOINTS, endpointSuccess net e = false) →
      call_overpass_api net = none) ∧
    (∀ (i : Nat) (e : String) (d : β), OVERPASS_ENDPOINTS[i]? = some e →
      net e = .ok (200, d) →
      (∀ j f, j < i → OVERPASS_ENDPOINTS[j]? = some f → endpointSuccess net f = false) →
      call_overpass_api net = some d) :=
  ⟨fun h => tryEndpoints_eq_none net OVERPASS_ENDPOINTS h,
   fun i e d hi hnet hbefore => tryEndpoints_eq_some net OVERPASS_ENDPOINTS i e d hi hnet hbefore⟩

/-- Witness for C7: a network where every endpoint is down, and one
where the first endpoint times out and the second answers 200. -/
theorem call_overpass_api_failover_witness :
    call_overpass_api (β := Nat) (fun _ => .error "down") = none ∧
    call_overpass_api (β := Nat) (fun e =>
      if e = "http://31.97.187.239:12345/api/interpreter" then .error "timeout"
      else .ok (200, 42)) = some 42 := by
  constructor
  · exact (call_overpass_api_failover (fun _ => .error "down")).1 (fun e _ => rfl)
  · refine (call_overpass_api_failover _).2 1 "https://overpass-api.de/api/interpreter" 42
      rfl rfl ?_
    intro j f hj hjf
    cases j with
    | zero =>
      cases hjf
      rfl
    | succ j => omega

/-! ## facility_analyzer.generate_summary_report -/

/-- The nine display-category column names of the result records. -/
def displayCategories : List String :=
  ["Residential", "Education", "Public Area", "Culinary", "Business Center",
   "Groceries", "Convenient Stores", "Industrial", "Hospital/Clinic"]

/-- Python result.get(category, False) on a result record: the flag of a
display category, False for any other key. -/
def flagOf (category : String) (r : OutletResult) : Bool :=
  if category = "Residential" then r.residential
  else if category = "Education" then r.education
  else if category = "Public Area" then r.public_area
  else if category = "Culinary" then r.culinary
  else if category = "Business Center" then r.business_center
  else if category = "Groceries" then r.groceries
  else if category = "Convenient Stores" then r.convenient_stores
  else if category = "Industrial" then r.industrial
  else if category = "Hospital/Clinic" then r.hospital_clinic
  else false

/-- Python sum(1 for category in categories if result.get(category, False)). -/
def facility_count (r : OutletResult) : Nat :=
  (displayCategories.filter (fun c => flagOf c r)).length

/-- One iteration of the best-outlet loop of generate_summary_report. -/
def bestStep (acc : Nat × List String) (r : OutletResult) : Nat × List String :=
  let c := facility_count r
  if c > acc.1 then (c, [r.namaOutlet])
  else if c = acc.1 then (acc.1, acc.2 ++ [r.namaOutlet])
  else acc

/-- The summary record of generate_summary_report. -/
structure SummaryReport where
  total_outlets : Nat
  category_stats : List (String × Nat × ℚ)
  max_facilities : Nat
  best_outlets : List String

/-- Embedding of facility_analyzer.generate_summary_report: None on an
empty result list, else per-category counts with percentages and the
best-outlet scan starting from max 0 and an empty list. -/
def generate_summary_report (results : List OutletResult) : Option SummaryReport :=
  if results = [] then none
  else
    let total := results.length
    let stats := displayCategories.map fun c =>
      (c, ((results.filter (fun r => flagOf c r)).length,
        ((results.filter (fun r => flagOf c r)).length : ℚ) / (total : ℚ) * 100))
    let best := results.foldl bestStep (0, [])
    some { total_outlets := total,
           category_stats := stats,
           max_facilities := best.1,
           best_outlets := best.2 }

theorem bestLoop_spec (l : List OutletResult) :
    (∀ r ∈ l, facility_count r ≤ (l.foldl bestStep (0, ([] : List String))).1) ∧
    (∀ name, name ∈ (l.foldl bestStep (0, ([] : List String))).2 ↔
      ∃ r ∈ l, r.namaOutlet = name ∧
        facility_count r = (l.foldl bestStep (0, ([] : List String))).1) ∧
    (l ≠ [] → ∃ r ∈ l,
      facility_count r = (l.foldl bestStep (0, ([] : List String))).1) := by
  induction l using List.reverseRecOn with
  | nil => simp
  | append_singleton l r ih =>
    obtain ⟨ih1, ih2, ih3⟩ := ih
    rcases hb : l.foldl bestStep (0, ([] : List String)) with ⟨m, b⟩
    rw [hb] at ih1 ih2 ih3
    have hfold : (l ++ [r]).foldl bestStep (0, ([] : List String)) = bestStep (m, b) r := by
      rw [List.foldl_append, hb]
      rfl
    rw [hfold]
    simp only [bestStep]
    rcases Nat.lt_trichotomy m (facility_count r) with hgt | heq | hlt
    · rw [if_pos hgt]
      dsimp only
      refine ⟨?_, ?_, ?_⟩
      · intro x hx
        rcases List.mem_append.mp hx with hx | hx
        · exact le_of_lt (lt_of_le_of_lt (ih1 x hx) hgt)
        · rw [List.mem_singleton.mp hx]
      · intro name
        simp only [List.mem_singleton]
        constructor
        · rintro rfl
          exact ⟨r, List.mem_append_right _ (List.mem_singleton_self r), rfl, rfl⟩
        · rintro ⟨x, hx, hxn, hxc⟩
          rcases List.mem_append.mp hx with hx | hx
          · exact absurd (hxc ▸ ih1 x hx) (by omega)
          · rw [List.mem_singleton.mp hx] at hxn
            exact hxn.symm
      · intro _
        exact ⟨r, List.mem_append_right _ (List.mem_singleton_self r), rfl⟩
    · rw [if_neg (by omega), if_pos heq.symm]
      dsimp only
      refine ⟨?_, ?_, ?_⟩
      · intro x hx
        rcases List.mem_append.mp hx with hx | hx
        · exact ih1 x hx
        · rw [List.mem_singleton.mp hx]
          omega
      · intro name
        rw [List.mem_append, List.mem_singleton, ih2 name]
        constructor
        · rintro (⟨x, hx, hxn, hxc⟩ | rfl)
          · exact ⟨x, List.mem_append_left _ hx, hxn, hxc⟩
          · exact ⟨r, List.mem_append_right _ (List.mem_singleton_self r), rfl, heq.symm⟩
        · rintro ⟨x, hx, hxn, hxc⟩
          rcases List.mem_append.mp hx with hx | hx
          · exact Or.inl ⟨x, hx, hxn, hxc⟩
          · rw [List.mem_singleton.mp hx] at hxn
            exact Or.inr hxn.symm
      · intro _
        exact ⟨r, List.mem_append_right _ (List.mem_singleton_self r), heq.symm⟩
    · rw [if_neg (by omega), if_neg (by omega)]
      dsimp only
      refine ⟨?_, ?_, ?_⟩
      · intro x hx
        rcases List.mem_append.mp hx with hx | hx
        · exact ih1 x hx
        · rw [List.mem_singleton.mp hx]
          omega
      · intro name
        rw [ih2 name]
        constructor
        · rintro ⟨x, hx, hxn, hxc⟩
          exact ⟨x, List.mem_append_left _ hx, hxn, hxc⟩
        · rintro ⟨x, hx, hxn, hxc⟩
          rcases List.mem_append.mp hx with hx | hx
          · exact ⟨x, hx, hxn, hxc⟩
          · rw [List.mem_singleton.mp hx] at hxc
            omega
      · intro _
        have hlne : l ≠ [] := by
          intro hl
          subst hl
          have h0 : ((0, ([] : List String)) : Nat × List String) = (m, b) := hb
          cases h0
          omega
        obtain ⟨x, hx, hxc⟩ := ih3 hlne
        exact ⟨x, List.mem_append_left _ hx, hxc⟩

/-- C8: for a non-empty result list the summary reports the total, a
per-category pair of true-count and percentage of the total for each of
the nine categories, and the best-outlet list contains exactly the
names of the outlets achieving the maximum per-outlet flag count, ties
included. -/
theorem generate_summary_report_correct (results : List OutletResult)
    (hne : results ≠ []) :
    ∃ s, generate_summary_report results = some s ∧
      s.total_outlets = results.length ∧
      s.category_stats = displayCategories.map (fun c =>
        (c, ((results.filter (fun r => flagOf c r)).length,
          ((results.filter (fun r => flagOf c r)).length : ℚ) /
            (results.length : ℚ) * 100))) ∧
      (∀ r ∈ results, facility_count r ≤ s.max_facilities) ∧
      (∃ r ∈ results, facility_count r = s.max_facilities) ∧
      (∀ name, name ∈ s.best_outlets ↔
        ∃ r ∈ results, r.namaOutlet = name ∧ facility_count r = s.max_facilities) := by
  obtain ⟨h1, h2, h3⟩ := bestLoop_spec results
  exact ⟨_, by unfold generate_summary_report; rw [if_neg hne], rfl, rfl, h1, h3 hne, h2⟩

/-- Witness for C8 on a concrete two-outlet result list. -/
theorem generate_summary_report_correct_witness :
    ∃ s, generate_summary_report
        [failureRecord ⟨"A", "1, 2"⟩ 1 2, failureRecord ⟨"B", "3, 4"⟩ 3 4] = some s ∧
      s.total_outlets =
        [failureRecord ⟨"A", "1, 2"⟩ 1 2, failureRecord ⟨"B", "3, 4"⟩ 3 4].length ∧
      s.category_stats = displayCategories.map (fun c =>
        (c, (([failureRecord ⟨"A", "1, 2"⟩ 1 2, failureRecord ⟨"B", "3, 4"⟩ 3 4].filter
            (fun r => flagOf c r)).length,
          (([failureRecord ⟨"A", "1, 2"⟩ 1 2, failureRecord ⟨"B", "3, 4"⟩ 3 4].filter
            (fun r => flagOf c r)).length : ℚ) /
            (([failureRecord ⟨"A", "1, 2"⟩ 1 2,
               failureRecord ⟨"B", "3, 4"⟩ 3 4].length : Nat) : ℚ) * 100))) ∧
      (∀ r ∈ [failureRecord ⟨"A", "1, 2"⟩ 1 2, failureRecord ⟨"B", "3, 4"⟩ 3 4],
        facility_count r ≤ s.max_facilities) ∧
      (∃ r ∈ [failureRecord ⟨"A", "1, 2"⟩ 1 2, failureRecord ⟨"B", "3, 4"⟩ 3 4],
        facility_count r = s.max_facilities) ∧
      (∀ name, name ∈ s.best_outlets ↔
        ∃ r ∈ [failureRecord ⟨"A", "1, 2"⟩ 1 2, failureRecord ⟨"B", "3, 4"⟩ 3 4],
          r.namaOutlet = name ∧ facility_count r = s.max_facilities) :=
  generate_summary_report_correct _ (by decide)

/-! ## facility_analyzer.increase_detection_radius -/

/-- The outlet dict rebuilt from a result record inside
increase_detection_radius. -/
def mkOutlet (r : OutletResult) : Outlet :=
  ⟨r.namaOutlet, r.koordinat⟩

/-- The parallel lists indices_without_facilities and
outlets_without_facilities of increase_detection_radius, kept as one
list of pairs: the positions of the all-false records together with
their rebuilt outlets, in index order. -/
def allFalsePairs (results : List OutletResult) : List (Nat × Outlet) :=
  (results.enum.filter fun p => !anyFlag p.2).map fun p => (p.1, mkOutlet p.2)

/-- The update loop: for i, updated in zip(indices, updated_results),
results[i] = updated (the source's truthiness guard never fails on a
record). -/
def applyUpdates (results : List OutletResult) (ups : List (Nat × OutletResult)) :
    List OutletResult :=
  ups.foldl (fun acc iu => acc.set iu.1 iu.2) results

/-- Embedding of facility_analyzer.increase_detection_radius: identify
the all-false entries, re-run batch_process_outlets on their outlets
(batch size 1000, completion order sched), and write the returned
records back positionally over the all-false indices. -/
def increase_detection_radius (proc : Outlet → Option OutletResult)
    (sched : List Outlet → List Outlet) (results : List OutletResult) :
    List OutletResult :=
  if allFalsePairs results = [] then results
  else applyUpdates results
    (((allFalsePairs results).map Prod.fst).zip
      (batch_process_outlets proc sched 1000 ((allFalsePairs results).map Prod.snd)))

/-- A facilities vector for the C2 counterexample: outlet A is culinary,
outlet B is residential. -/
def cexFacilities (p : Outlet) : Facilities :=
  ⟨p.nama == "B", false, false, p.nama == "A", false, false, false, false, false⟩

/-- The per-outlet worker of the C2 counterexample: the pipeline's own
process_outlet_with_retry against a client that answers immediately. -/
def cexProc (p : Outlet) : Option OutletResult :=
  (process_outlet_with_retry (fun _ => .ok (cexFacilities p)) p 2).1

/-- Two all-false records for outlets A and B. -/
def cexResults : List OutletResult :=
  [failureRecord ⟨"A", "1, 2"⟩ 1 2, failureRecord ⟨"B", "1, 2"⟩ 1 2]

/-- Counterexample for C2 as stated: when the two re-queries complete in
reversed order, position 0 (outlet A) receives outlet B's re-query
record, so an all-false entry is not replaced by the re-query result for
its own outlet and the outlet-to-index correspondence is broken, even
though the length is preserved. -/
theorem increase_detection_radius_reorder_cex :
    cexResults.map OutletResult.namaOutlet = ["A", "B"] ∧
    (increase_detection_radius cexProc List.reverse cexResults).map
      OutletResult.namaOutlet = ["B", "A"] ∧
    (increase_detection_radius cexProc List.reverse cexResults).length =
      cexResults.length := by
  refine ⟨rfl, by decide, by decide⟩

theorem applyUpdates_length (ups : List (Nat × OutletResult)) :
    ∀ results, (applyUpdates results ups).length = results.length := by
  induction ups with
  | nil => intro results; rfl
  | cons iu rest ih =>
    intro results
    have hstep : applyUpdates results (iu :: rest) =
        applyUpdates (results.set iu.1 iu.2) rest := rfl
    rw [hstep, ih, List.length_set]

theorem lookup_eq_none_of_not_mem {γ : Type} {l : List (Nat × γ)} {k : Nat}
    (h : k ∉ l.map Prod.fst) : l.lookup k = none := by
  induction l with
  | nil => rfl
  | cons iv rest ih =>
    rcases iv with ⟨k1, v1⟩
    have hk : k ≠ k1 := fun he => h (by simp [he])
    rw [List.lookup_cons]
    have : (k == k1) = false := by simp [hk]
    rw [this]
    exact ih fun hm => h (by simp at hm ⊢; exact Or.inr hm)

theorem lookup_eq_some_of_mem {γ : Type} {l : List (Nat × γ)} {k : Nat} {v : γ}
    (hmem : (k, v) ∈ l) (hnd : (l.map Prod.fst).Nodup) : l.lookup k = some v := by
  induction l with
  | nil => simp at hmem
  | cons iv rest ih =>
    rcases iv with ⟨k1, v1⟩
    rw [List.map_cons, List.nodup_cons] at hnd
    rcases List.mem_cons.mp hmem with he | hm
    · cases he
      rw [List.lookup_cons]
      simp
    · have hk : k ≠ k1 := by
        intro he
        subst he
        exact hnd.1 (List.mem_map.mpr ⟨(k, v), hm, rfl⟩)
      rw [List.lookup_cons]
      have hb : (k == k1) = false := by simp [hk]
      rw [hb]
      exact ih hm hnd.2

theorem applyUpdates_getElem (ups : List (Nat × OutletResult))
    (hnd : (ups.map Prod.fst).Nodup) :
    ∀ (results : List OutletResult) (j : Nat),
      (applyUpdates results ups)[j]? =
        match ups.lookup j with
        | some u => if j < results.length then some u else none
        | none => results[j]? := by
  induction ups with
  | nil =>
    intro results j
    simp [applyUpdates, List.lookup]
  | cons iu rest ih =>
    intro results j
    rcases iu with ⟨i, u⟩
    rw [List.map_cons, List.nodup_cons] at hnd
    have hstep : applyUpdates results ((i, u) :: rest) =
        applyUpdates (results.set i u) rest := rfl
    rw [hstep, ih hnd.2, List.lookup_cons]
    by_cases hji : j = i
    · subst hji
      have hb : (j == j) = true := by simp
      have hnone : rest.lookup j = none := lookup_eq_none_of_not_mem hnd.1
      rw [hb, hnone]
      dsimp only
      by_cases hlt : j < results.length
      · rw [if_pos hlt]
        exact List.getElem?_set_self hlt
      · rw [if_neg hlt, List.set_eq_of_length_le (Nat.le_of_not_lt hlt)]
        exact List.getElem?_eq_none (Nat.le_of_not_lt hlt)
    · have hb : (j == i) = false := by simp [hji]
      rw [hb]
      dsimp only
      rw [List.getElem?_set_ne (fun he => hji he.symm), List.length_set]

theorem allFalsePairs_fst_nodup (results : List OutletResult) :
    ((allFalsePairs results).map Prod.fst).Nodup := by
  unfold allFalsePairs
  rw [List.map_map]
  have hc : (Prod.fst ∘ fun p : Nat × OutletResult => (p.1, mkOutlet p.2)) =
      Prod.fst := rfl
  rw [hc]
  apply List.Nodup.sublist (List.Sublist.map Prod.fst (List.filter_sublist _))
  rw [List.enum_map_fst]
  exact List.nodup_range _

theorem mem_allFalsePairs {results : List OutletResult} {j : Nat} {r : OutletResult}
    (hj : results[j]? = some r) (hf : anyFlag r = false) :
    (j, mkOutlet r) ∈ allFalsePairs results := by
  unfold allFalsePairs
  refine List.mem_map.mpr ⟨(j, r), ?_, rfl⟩
  rw [List.mem_filter]
  exact ⟨List.mem_enum_iff_getElem?.mpr hj, by simp [hf]⟩

theorem not_mem_fst_allFalsePairs {results : List OutletResult} {j : Nat}
    {r : OutletResult} (hj : results[j]? = some r) (ht : anyFlag r = true) :
    j ∉ (allFalsePairs results).map Prod.fst := by
  intro hmem
  unfold allFalsePairs at hmem
  rw [List.map_map] at hmem
  rcases List.mem_map.mp hmem with ⟨⟨j2, r2⟩, hpp, hfst⟩
  rcases List.mem_filter.mp hpp with ⟨hen, hflag⟩
  have hj2 : j2 = j := hfst
  subst hj2
  rw [List.mem_enum_iff_getElem?] at hen
  rw [hj] at hen
  cases hen
  rw [ht] at hflag
  simp at hflag

/-- The placeholder used only as the default of Option.getD below. -/
def defaultResult : OutletResult :=
  failureRecord ⟨"", ""⟩ 0 0

theorem zip_reduce_eq (g : Outlet → Option OutletResult) :
    ∀ ps : List (Nat × Outlet), (∀ pr ∈ ps, (g pr.2).isSome = true) →
      (ps.map Prod.fst).zip (((ps.map Prod.snd).map g).reduceOption) =
        ps.map fun pr => (pr.1, (g pr.2).getD defaultResult) := by
  intro ps
  induction ps with
  | nil => intro _; rfl
  | cons pr rest ih =>
    intro h
    have hpr := h pr (List.mem_cons_self _ _)
    rcases Option.isSome_iff_exists.mp hpr with ⟨u, hu⟩
    simp only [List.map_cons, hu, List.reduceOption_cons_of_some, List.zip_cons_cons]
    rw [ih fun q hq => h q (List.mem_cons_of_mem _ hq)]
    rfl

theorem bpo_id (proc : Outlet → Option OutletResult) (bs : Nat) (l : List Outlet) :
    batch_process_outlets proc id bs l = (l.map proc).reduceOption := by
  unfold batch_process_outlets
  suffices h : ∀ (fuel : Nat) (l : List Outlet),
      (chunksOfAux bs fuel l).flatMap (fun b => ((id b).map proc).reduceOption) =
        (l.map proc).reduceOption by
    exact h l.length l
  intro fuel
  induction fuel with
  | zero =>
    intro l
    cases l with
    | nil => rfl
    | cons x xs => simp [chunksOfAux]
  | succ fuel ih =>
    intro l
    cases l with
    | nil => rfl
    | cons x xs =>
      simp only [chunksOfAux, List.flatMap_cons]
      rw [ih]
      simp only [id_eq]
      rw [← List.reduceOption_append, ← List.map_append, List.cons_append,
        List.take_append_drop]

/-- C2 (amended): the escalation pass always preserves the list length
and leaves every entry with at least one true flag unchanged; and when
the re-query batch completes in submission order (sched = id) and no
re-query returns None, every all-false entry i is replaced in place by
the re-query result for that same outlet, preserving the
outlet-to-index correspondence.  (Under other completion orders the
positional zip can pair an index with another outlet's record, as the
counterexample shows.) -/
theorem increase_detection_radius_inorder
    (proc : Outlet → Option OutletResult) (results : List OutletResult)
    (hsome : ∀ pr ∈ allFalsePairs results, (proc pr.2).isSome = true) :
    (increase_detection_radius proc id results).length = results.length ∧
    ∀ (j : Nat) (r : OutletResult), results[j]? = some r →
      (anyFlag r = true →
        (increase_detection_radius proc id results)[j]? = some r) ∧
      (anyFlag r = false →
        (increase_detection_radius proc id results)[j]? = proc (mkOutlet r)) := by
  by_cases hp : allFalsePairs results = []
  · unfold increase_detection_radius
    rw [if_pos hp]
    refine ⟨rfl, ?_⟩
    intro j r hj
    refine ⟨fun _ => hj, fun hf => ?_⟩
    exact absurd (mem_allFalsePairs hj hf) (by rw [hp]; simp)
  · unfold increase_detection_radius
    rw [if_neg hp, bpo_id, zip_reduce_eq proc (allFalsePairs results) hsome]
    have hnd : (((allFalsePairs results).map fun pr =>
        (pr.1, (proc pr.2).getD defaultResult)).map Prod.fst).Nodup := by
      rw [List.map_map]
      exact allFalsePairs_fst_nodup results
    refine ⟨applyUpdates_length _ results, ?_⟩
    intro j r hj
    have hjl : j < results.length := by
      rcases List.getElem?_eq_some.mp hj with ⟨hl, _⟩
      exact hl
    rw [applyUpdates_getElem _ hnd results j]
    constructor
    · intro ht
      have hnone : (((allFalsePairs results).map fun pr =>
          (pr.1, (proc pr.2).getD defaultResult)).lookup j) = none := by
        apply lookup_eq_none_of_not_mem
        rw [List.map_map]
        exact not_mem_fst_allFalsePairs hj ht
      rw [hnone]
      exact hj
    · intro hf
      have hmem : (j, mkOutlet r) ∈ allFalsePairs results := mem_allFalsePairs hj hf
      have hsome2 : (proc (mkOutlet r)).isSome = true := hsome _ hmem
      have hlk : (((allFalsePairs results).map fun pr =>
          (pr.1, (proc pr.2).getD defaultResult)).lookup j) =
          some ((proc (mkOutlet r)).getD defaultResult) := by
        apply lookup_eq_some_of_mem _ hnd
        exact List.mem_map.mpr ⟨(j, mkOutlet r), hmem, rfl⟩
      rw [hlk]
      dsimp only
      rw [if_pos hjl]
      rcases Option.isSome_iff_exists.mp hsome2 with ⟨u, hu⟩
      rw [hu]
      rfl

/-- Witness for C2 (amended) at sched = id on the counterexample data:
in submission order each all-false entry is replaced by the re-query
result of its own outlet. -/
theorem increase_detection_radius_inorder_witness :
    (increase_detection_radius cexProc id cexResults).length = cexResults.length ∧
    ∀ (j : Nat) (r : OutletResult), cexResults[j]? = some r →
      (anyFlag r = true →
        (increase_detection_radius cexProc id cexResults)[j]? = some r) ∧
      (anyFlag r = false →
        (increase_detection_radius cexProc id cexResults)[j]? =
          cexProc (mkOutlet r)) := by
  apply increase_detection_radius_inorder cexProc cexResults
  decide

end AvaWincore
